import Mathlib

/-!
# Verification of the DocStack multi-store orchestration client

A shallow embedding of the DocStack repository (frontend client layer under
`frontend/app`, the search page, and the persistence/orchestration behaviour
described in `docs/PLAN.md`), together with theorems settling the frozen
claims about the specification.

Conventions:
* JavaScript strings become `String`, arrays become `List`, numbers used as
  counts become `Nat`, relevance scores become `Rat`.
* A `fetch` interaction is a value of `FetchResult`: either a network-level
  rejection or an HTTP response with a status code and a body.
* Functions that the source writes as async handlers with state setters are
  embedded as pure state-transition functions; the remote response (unknown
  at call time) is passed in as an argument.
-/

namespace Docstack

/-- Character class used by the trim step of the search handler
(the source calls the JavaScript `trim()` on the query text). -/
def isSpaceChar (c : Char) : Bool :=
  c == ' ' || c == '\t' || c == '\n' || c == '\r'

/-- Trim of a character list: drop whitespace on both ends. -/
def trimData (l : List Char) : List Char :=
  ((l.dropWhile isSpaceChar).reverse.dropWhile isSpaceChar).reverse

/-- Embedding of the JavaScript `String.prototype.trim` used by
`handleSearch` in the search page. -/
def jsTrim (s : String) : String :=
  String.mk (trimData s.data)

/-! ## The HTTP body and response model for `ApiClient` (frontend/app/page.tsx) -/

/-- Body of an HTTP response as seen by `ApiClient.request`:
either it fails to parse as JSON, or it parses and may or may not expose a
string `detail` field.  The raw response text is kept alongside. -/
inductive Body where
  | notJson : String → Body
  | json : Option String → String → Body
deriving DecidableEq

/-- Result of one `fetch` call: a network-level rejection (timeout,
unreachable host) carrying the runtime error message, or an HTTP response
with a status code and a body. -/
inductive FetchResult where
  | netError : String → FetchResult
  | response : Nat → Body → FetchResult
deriving DecidableEq

/-- Decimal digits of a natural number, little-endian, with explicit fuel
so that the definition is structurally recursive. -/
def decDigitsAux : Nat → Nat → List Nat
  | 0, _ => []
  | fuel + 1, n => if n = 0 then [] else n % 10 :: decDigitsAux fuel (n / 10)

/-- The digit-to-character table for decimal printing. -/
def digitChar (d : Nat) : Char :=
  if d = 0 then '0' else if d = 1 then '1' else if d = 2 then '2'
  else if d = 3 then '3' else if d = 4 then '4' else if d = 5 then '5'
  else if d = 6 then '6' else if d = 7 then '7' else if d = 8 then '8' else '9'

/-- Decimal rendering of a natural number, as produced by JavaScript
template-literal interpolation of a number and by the Python template
engine when it writes numeric parameters. -/
def natDecimal (n : Nat) : String :=
  if n = 0 then "0" else String.mk (((decDigitsAux n n).map digitChar).reverse)

/-- The `detail` field of the object built in the non-ok branch of
`ApiClient.request`: the parsed body's `detail` if the body is JSON, else
the synthesized object from the `.catch` handler. -/
def parsedDetail (status : Nat) : Body → Option String
  | Body.notJson _ => some ("HTTP error! status: " ++ natDecimal status)
  | Body.json d _ => d

/-- The message of the `Error` thrown by `ApiClient.request` on a non-2xx
response: `error.detail || fallback`, where an absent or empty `detail`
(falsy in JavaScript) selects the fallback text. -/
def errMessage (status : Nat) (b : Body) (fallback : String) : String :=
  match parsedDetail status b with
  | some d => if d = "" then fallback else d
  | none => fallback

/-- Embedding of the shared request logic of `ApiClient.request` and
`ApiClient.uploadDocuments`: 2xx responses succeed with the body; non-2xx
responses throw an `Error` with `errMessage`; network rejections propagate.
`fallback` is the literal in the `||` of the throw site. -/
def requestWith (fallback : String) : FetchResult → Except String Body
  | FetchResult.netError m => Except.error m
  | FetchResult.response status b =>
    if 200 ≤ status ∧ status ≤ 299 then Except.ok b
    else Except.error (errMessage status b fallback)

/-- `ApiClient.request` (frontend/app/page.tsx lines 85-111). -/
def request (r : FetchResult) : Except String Body :=
  requestWith "API request failed" r

/-- The upload-specific request path of `ApiClient.uploadDocuments`
(frontend/app/page.tsx lines 180-208); identical control flow with a
different fallback message. -/
def uploadDocumentsRequest (r : FetchResult) : Except String Body :=
  requestWith "Document upload failed" r

/-- `pat` occurs somewhere inside `s`: the claim's notion of an error
"carrying" the remote status or body. -/
def occursIn (pat s : String) : Prop :=
  pat.data <:+: s.data

instance (pat s : String) : Decidable (occursIn pat s) := by
  unfold occursIn; infer_instance

/-! ## The search page (src/unnamed/part_004) -/

/-- One entry of the result list rendered by the search page. -/
structure QueryResult where
  document_id : String
  filename : String
  content : String
  score : Rat
deriving DecidableEq

/-- The query API call issued by `handleSearch`: either
`ApiClient.queryDocstore` (single store) or `ApiClient.queryMultiDocstores`
(list of stores); both carry the query text and `topK`. -/
inductive ApiCall where
  | single : String → String → Nat → ApiCall
  | multi : List String → String → Nat → ApiCall
deriving DecidableEq

/-- Embedding of `handleSearch` (src/unnamed/part_004 lines 43-72).
Inputs: the query text, the selected docstore ids, the ids of all known
docstores, the (flattened) remote response, and the current result list.
Output: the API call issued (if any) and the new result list. -/
def handleSearch (query : String) (selectedDocstores : List String)
    (docstoreIds : List String) (response : List QueryResult)
    (results : List QueryResult) : Option ApiCall × List QueryResult :=
  if jsTrim query = "" then (none, results)
  else if selectedDocstores.length = 0 then
    if docstoreIds.length = 0 then (none, [])
    else (some (ApiCall.multi docstoreIds query 10), response)
  else if selectedDocstores.length = 1 then
    (some (ApiCall.single selectedDocstores.headI query 10), response)
  else (some (ApiCall.multi selectedDocstores query 10), response)

/-- Embedding of `toggleDocstore` (src/unnamed/part_004 lines 74-80):
remove the id when the selection includes it, append it otherwise. -/
def toggleDocstore (prev : List String) (docstoreId : String) : List String :=
  if docstoreId ∈ prev then prev.filter (fun id => id != docstoreId)
  else prev ++ [docstoreId]

/-! ## The auth store (frontend/app/page.tsx lines 255-327) -/

/-- The authenticated user record held by the auth store. -/
structure AuthUser where
  id : String
  email : String
deriving DecidableEq

/-- The Zustand auth store state. -/
structure AuthState where
  user : Option AuthUser
  isLoading : Bool
  error : Option String
deriving DecidableEq

/-- Embedding of `ApiClient.logout` (lines 130-136): run the logout
request; clear the token in the `finally` block on both paths; report
whether the request threw.  Returns the new token cell and the thrown
flag. -/
def apiLogout (remote : FetchResult) : Option String × Bool :=
  match request remote with
  | Except.ok _ => (none, false)
  | Except.error _ => (none, true)

/-- Embedding of `useAuthStore.logout` (lines 305-314): set loading, call
`api.logout`, and on both the success and the catch path set the user to
null and loading to false.  Returns the new auth state and token cell. -/
def storeLogout (st : AuthState) (remote : FetchResult) :
    AuthState × Option String :=
  let st1 : AuthState := { st with isLoading := true }
  match apiLogout remote with
  | (tok, true) => ({ st1 with user := none, isLoading := false }, tok)
  | (tok, false) => ({ st1 with user := none, isLoading := false }, tok)

/-! ## The docstore store (frontend/app/page.tsx lines 328-457) -/

/-- A docstore entry as held in the client store state. -/
structure ClientDocstore where
  id : String
  name : String
deriving DecidableEq

/-- The Zustand docstore store state. -/
structure DocstoreState where
  docstores : List ClientDocstore
  currentDocstore : Option ClientDocstore
  isLoading : Bool
  error : Option String
deriving DecidableEq

/-- Embedding of the success path of `useDocstoreStore.deleteDocstore`
(lines 438-454): filter out entries whose id equals the deleted id, clear
`currentDocstore` when it was the deleted one. -/
def deleteDocstoreClient (st : DocstoreState) (id : String) : DocstoreState :=
  { st with
    docstores := st.docstores.filter (fun d => d.id != id),
    currentDocstore :=
      match st.currentDocstore with
      | some c => if c.id = id then none else some c
      | none => none,
    isLoading := false,
    error := none }

/-! ## Spec-modelled backend: document upload deduplication -/

/-- Processing status of a Document row (spec section 3; PLAN.md
`documents.processing_status`). -/
inductive DocStatus where
  | pending
  | processing
  | completed
  | failed
deriving DecidableEq

/-- A Document row, reduced to the fields the deduplication logic reads:
content checksum and processing status. -/
structure DocumentRow where
  checksum : String
  status : DocStatus
deriving DecidableEq

/-- The Document rows of one store. -/
structure StoreDocs where
  docs : List DocumentRow
deriving DecidableEq

/-- Per-file outcome of an upload (spec section 4.1 `uploadDocuments`). -/
inductive UploadOutcome where
  | indexed
  | duplicate
  | failed
deriving DecidableEq

/-- A stored document blocks re-upload of checksum `c` when it has the same
checksum and is not in the `failed` state. -/
def isLiveDup (c : String) (d : DocumentRow) : Bool :=
  d.checksum == c && !(d.status == DocStatus.failed)

/-- Modelled from the spec: the per-file step of the Store Orchestrator's
`uploadDocuments` (spec section 4.1; the FastAPI upload handler is not under
src/, only its caller `handleUpload` is).  Compute the checksum; if a
Document with the same checksum exists in this store and is not `failed`,
skip and report `duplicate`; otherwise persist a row and submit to the
execution runtime, recording `processing` on success and `failed` on
synchronous rejection.  `submitOk` is the submission result. -/
def uploadOne (s : StoreDocs) (c : String) (submitOk : Bool) :
    StoreDocs × UploadOutcome :=
  if s.docs.any (isLiveDup c) then (s, UploadOutcome.duplicate)
  else if submitOk then
    (⟨s.docs ++ [⟨c, DocStatus.processing⟩]⟩, UploadOutcome.indexed)
  else (⟨s.docs ++ [⟨c, DocStatus.failed⟩]⟩, UploadOutcome.failed)

/-! ## Spec-modelled backend: reindex without downtime -/

/-- The Store metadata row read by the query path: the name of its current
backing search index. -/
structure StoreMeta where
  indexName : String

/-- The orchestrator-visible system state for one store: the store row and
the map from live search-index names to their document counts (`none`
means the index does not exist). -/
structure SearchSys where
  store : StoreMeta
  indexDocs : String → Option Nat

/-- Number of results a query against the store returns: the document count
of the index currently named by `Store.index_name` (zero when that index
does not exist). -/
def queryStore (s : SearchSys) : Nat :=
  (s.indexDocs s.store.indexName).getD 0

/-- Modelled from the spec: the intermediate states of `reindex(id)` (spec
section 4.1; the backend reindex endpoint is not under src/).  In order:
the initial state; the new index created and populated; pipelines
redeployed against the new index; the cut-over that updates
`Store.index_name`; and the deletion of the old index, scheduled only
after the cut-over commits. -/
def reindexStates (s : SearchSys) (newName : String) : List SearchSys :=
  let oldName := s.store.indexName
  let n := queryStore s
  let created : SearchSys :=
    ⟨s.store, fun i => if i = newName then some n else s.indexDocs i⟩
  let redeployed := created
  let cutOver : SearchSys := ⟨⟨newName⟩, created.indexDocs⟩
  let oldDeleted : SearchSys :=
    ⟨⟨newName⟩, fun i => if i = oldName then none else cutOver.indexDocs i⟩
  [s, created, redeployed, cutOver, oldDeleted]

/-- A concrete one-store system used to witness the reindex theorem. -/
def sampleSys : SearchSys :=
  ⟨⟨"docstack-a-1"⟩, fun i => if i = "docstack-a-1" then some 3 else none⟩

/-! ## Spec-modelled backend: store deletion cascade -/

/-- A Document row as seen by the cascade: its own id and owning store. -/
structure DocRow where
  id : String
  docstoreId : String
deriving DecidableEq

/-- A Pipeline row as seen by the cascade: its own id and owning store. -/
structure PipelineRow where
  id : String
  docstoreId : String
deriving DecidableEq

/-- The metadata database contents relevant to store deletion. -/
structure MetaDb where
  stores : List String
  documents : List DocRow
  pipelines : List PipelineRow
deriving DecidableEq

/-- Modelled from the spec: the persistence effect of `deleteStore(id)`
(spec sections 3, 4.1 and 6; PLAN.md marks `documents.docstore_id` and
`pipelines.docstore_id` as CASCADE foreign keys; the backend handler is not
under src/).  Deleting a store removes its row and every Document and
Pipeline row owned by it. -/
def deleteStoreCascade (db : MetaDb) (storeId : String) : MetaDb :=
  { stores := db.stores.filter (fun s => s != storeId),
    documents := db.documents.filter (fun d => d.docstoreId != storeId),
    pipelines := db.pipelines.filter (fun p => p.docstoreId != storeId) }

/-! ## Spec-modelled backend: multi-store query merge -/

/-- One retrieval hit as returned by a store's query pipeline. -/
structure Hit where
  ref : String
  content : String
  score : Rat
deriving DecidableEq

/-- A hit tagged with its provenance: the position of its store in the
request's id list, its position inside that store's ranked response, and
the store id itself. -/
structure Tagged where
  storePos : Nat
  origPos : Nat
  storeId : String
  hit : Hit
deriving DecidableEq

/-- The merge order of the multi-store query: higher score first; on a
score tie, the store earlier in the request's id list first; within one
store, the original retrieval order. -/
def keyLE (a b : Tagged) : Prop :=
  b.hit.score < a.hit.score ∨
    (a.hit.score = b.hit.score ∧
      (a.storePos < b.storePos ∨
        (a.storePos = b.storePos ∧ a.origPos ≤ b.origPos)))

instance : DecidableRel keyLE := fun a b => by
  unfold keyLE
  infer_instance

instance : IsTotal Tagged keyLE :=
  ⟨by
    intro a b
    rcases lt_trichotomy a.hit.score b.hit.score with h | h | h
    · exact Or.inr (Or.inl h)
    · rcases lt_trichotomy a.storePos b.storePos with h2 | h2 | h2
      · exact Or.inl (Or.inr ⟨h, Or.inl h2⟩)
      · rcases le_total a.origPos b.origPos with h3 | h3
        · exact Or.inl (Or.inr ⟨h, Or.inr ⟨h2, h3⟩⟩)
        · exact Or.inr (Or.inr ⟨h.symm, Or.inr ⟨h2.symm, h3⟩⟩)
      · exact Or.inr (Or.inr ⟨h.symm, Or.inl h2⟩)
    · exact Or.inl (Or.inl h)⟩

instance : IsTrans Tagged keyLE :=
  ⟨by
    intro a b c hab hbc
    rcases hab with h1 | ⟨e1, p1⟩ <;> rcases hbc with h2 | ⟨e2, p2⟩
    · exact Or.inl (h2.trans h1)
    · exact Or.inl (by rw [← e2]; exact h1)
    · exact Or.inl (by rw [e1]; exact h2)
    · refine Or.inr ⟨e1.trans e2, ?_⟩
      rcases p1 with q1 | ⟨f1, r1⟩ <;> rcases p2 with q2 | ⟨f2, r2⟩
      · exact Or.inl (q1.trans q2)
      · exact Or.inl (by rw [← f2]; exact q1)
      · exact Or.inl (by rw [f1]; exact q2)
      · exact Or.inr ⟨f1.trans f2, r1.trans r2⟩⟩

/-- Tag the hits of one store with their positions, starting at `j`. -/
def tagHits (storePos : Nat) (storeId : String) : Nat → List Hit → List Tagged
  | _, [] => []
  | j, h :: t => ⟨storePos, j, storeId, h⟩ :: tagHits storePos storeId (j + 1) t

/-- Tag the per-store responses of a fan-out, store by store. -/
def tagStores : Nat → List (String × List Hit) → List Tagged
  | _, [] => []
  | i, p :: rest => tagHits i p.1 0 p.2 ++ tagStores (i + 1) rest

/-- Modelled from the spec: the multi-store `query(storeIds, text, topK)`
merge (spec section 4.1; the backend query endpoint is not under src/,
the search page only forwards to it).  Fan out one call per store, tag
every hit with its source, re-sort by descending score with the stable
tie-break, and cap at `topK`. -/
def multiStoreQuery (stores : List (String × List Hit)) (topK : Nat) :
    List Tagged :=
  (List.insertionSort keyLE (tagStores 0 stores)).take topK

/-! ## Spec-modelled backend: pipeline template engine -/

/-- The two pipeline template kinds (spec section 4.2). -/
inductive TemplateKind where
  | indexing
  | query
deriving DecidableEq

/-- The chunking strategies admitted by a ModelConfig (spec section 3). -/
inductive ChunkStrategy where
  | sentence
  | word
  | passage
deriving DecidableEq

/-- The template variable written for the chunking strategy. -/
def splitByName : ChunkStrategy → String
  | ChunkStrategy.sentence => "sentence"
  | ChunkStrategy.word => "word"
  | ChunkStrategy.passage => "passage"

/-- The parameter set of `render` (spec section 4.2; PLAN.md template
variables). -/
structure PipelineParams where
  indexName : String
  embedderModel : String
  embeddingDim : Nat
  chunkStrategy : ChunkStrategy
  chunkLength : Nat
  chunkOverlap : Nat
  topK : Nat
  normalizeEmbeddings : Bool
  batchSize : Nat
deriving DecidableEq

/-- Text of the indexing template up to (and excluding) the rendered
`split_length` value; independent of `chunkLength`. -/
def indexingHead (p : PipelineParams) : String :=
  "components:\n  splitter:\n    split_by: " ++ splitByName p.chunkStrategy ++
  "\n    split_length: "

/-- Text of the indexing template after the rendered `split_length` value;
independent of `chunkLength`. -/
def indexingTail (p : PipelineParams) : String :=
  "\n    split_overlap: " ++ natDecimal p.chunkOverlap ++
  "\n  embedder:\n    model: " ++ p.embedderModel ++
  "\n    normalize_embeddings: " ++
  (if p.normalizeEmbeddings then "true" else "false") ++
  "\n    batch_size: " ++ natDecimal p.batchSize ++
  "\n  writer:\n    index_name: " ++ p.indexName ++
  "\n    embedding_dim: " ++ natDecimal p.embeddingDim ++ "\n"

/-- Modelled from the spec: the pure template engine
`render(templateKind, storeParams)` (spec section 4.2; the Jinja2 templates
and pipeline_generator service are not under src/).  Per PLAN.md, the
indexing template contains the splitter (split_by, split_length,
split_overlap), embedder, and writer stages; the query template contains
the text embedder, retriever (top_k) and prompt builder, with no splitter
stage. -/
def render : TemplateKind → PipelineParams → String
  | TemplateKind.indexing, p =>
    indexingHead p ++ natDecimal p.chunkLength ++ indexingTail p
  | TemplateKind.query, p =>
    "components:\n  text_embedder:\n    model: " ++ p.embedderModel ++
    "\n  retriever:\n    index_name: " ++ p.indexName ++
    "\n    top_k: " ++ natDecimal p.topK ++
    "\n  prompt_builder:\n    template: rag_context\n"

/-- Value of a little-endian decimal digit list. -/
def ofDec : List Nat → Nat
  | [] => 0
  | d :: t => d + 10 * ofDec t

end Docstack

namespace Docstack

/-! ## Claim C1 -/

/-- Claim C1, as frozen, is false on the code: with no docstore selected and
no docstore known at all, `handleSearch` issues no call to the multi-store
endpoint (it clears the result list and returns), whereas the claim demands
a multi-store call with the full (here empty) id list. -/
theorem C1_counterexample :
    (handleSearch "hello" [] [] [] []).1 = none ∧
    (handleSearch "hello" [] [] [] []).1 ≠ some (ApiCall.multi [] "hello" 10) := by
  refine ⟨by decide, by decide⟩

/-- Claim C1 (amended): for a query whose trimmed text is non-empty,
exactly one selected id routes to the single-store endpoint; more than one
routes to the multi-store endpoint with the full selected list; no selected
id routes to the multi-store endpoint with all known ids when at least one
store is known, and when none is known no call is issued and the result
list is set to empty. -/
theorem C1_query_routing_amended (q : String) (sel allIds : List String)
    (resp res : List QueryResult) (hq : jsTrim q ≠ "") :
    (sel.length = 1 →
      (handleSearch q sel allIds resp res).1 =
        some (ApiCall.single sel.headI q 10)) ∧
    (1 < sel.length →
      (handleSearch q sel allIds resp res).1 = some (ApiCall.multi sel q 10)) ∧
    (sel = [] → allIds ≠ [] →
      (handleSearch q sel allIds resp res).1 = some (ApiCall.multi allIds q 10)) ∧
    (sel = [] → allIds = [] →
      handleSearch q sel allIds resp res = (none, [])) := by
  refine ⟨?_, ?_, ?_, ?_⟩
  · intro h1
    simp [handleSearch, hq, h1]
  · intro h2
    have h0 : sel.length ≠ 0 := by omega
    have h1 : sel.length ≠ 1 := by omega
    simp [handleSearch, hq, h0, h1]
  · intro hsel hall
    have hlen : allIds.length ≠ 0 := by
      simpa [List.length_eq_zero] using hall
    simp [handleSearch, hq, hsel, hlen]
  · intro hsel hall
    simp [handleSearch, hq, hsel, hall]

/-- Witness for C1: concrete instances of all four routing cases. -/
theorem C1_witness :
    (handleSearch "hi" ["s1"] ["s1", "s2"] [] []).1 =
      some (ApiCall.single "s1" "hi" 10) ∧
    (handleSearch "hi" ["s1", "s2"] [] [] []).1 =
      some (ApiCall.multi ["s1", "s2"] "hi" 10) ∧
    (handleSearch "hi" [] ["s1", "s2"] [] []).1 =
      some (ApiCall.multi ["s1", "s2"] "hi" 10) ∧
    handleSearch "hi" [] [] [] [] = (none, []) := by
  refine ⟨?_, ?_, ?_, ?_⟩
  · exact (C1_query_routing_amended "hi" ["s1"] ["s1", "s2"] [] [] (by decide)).1 rfl
  · exact (C1_query_routing_amended "hi" ["s1", "s2"] [] [] [] (by decide)).2.1 (by decide)
  · exact (C1_query_routing_amended "hi" [] ["s1", "s2"] [] [] (by decide)).2.2.1 rfl (by decide)
  · exact (C1_query_routing_amended "hi" [] [] [] [] (by decide)).2.2.2 rfl rfl

/-! ## Claim C2 -/

/-- Claim C2, as frozen, is false on the code: a 500 response whose body is
JSON without a `detail` field is thrown as the fixed message
"API request failed", which carries neither the remote status nor the
response body. -/
theorem C2_counterexample :
    request (FetchResult.response 500 (Body.json none "message only body")) =
      Except.error "API request failed" ∧
    ¬ occursIn "500" "API request failed" ∧
    ¬ occursIn "message only body" "API request failed" := by
  refine ⟨rfl, by decide, by decide⟩

/-- Claim C2 (amended): every network rejection and every non-2xx response
is surfaced as a thrown error and never as a success value; the thrown
message is the body's `detail` field when the body is JSON with a non-empty
`detail` (the remote status is not attached in that case), the fixed
fallback text — carrying neither status nor body — when the body is JSON
without a usable `detail`, and a generic message carrying the status when
the body is not JSON. -/
theorem C2_error_surfacing_amended (fallback m : String) (status : Nat)
    (b : Body) (hs : ¬ (200 ≤ status ∧ status ≤ 299)) :
    requestWith fallback (FetchResult.netError m) = Except.error m ∧
    requestWith fallback (FetchResult.response status b) =
      Except.error (errMessage status b fallback) ∧
    (∀ b', requestWith fallback (FetchResult.response status b) ≠ Except.ok b') ∧
    (∀ raw d, d ≠ "" → errMessage status (Body.json (some d) raw) fallback = d) ∧
    (∀ raw, errMessage status (Body.json none raw) fallback = fallback) ∧
    (∀ raw, errMessage status (Body.notJson raw) fallback =
      "HTTP error! status: " ++ natDecimal status) := by
  refine ⟨rfl, ?_, ?_, ?_, ?_, ?_⟩
  · simp [requestWith, hs]
  · intro b'
    simp [requestWith, hs]
  · intro raw d hd
    simp [errMessage, parsedDetail, hd]
  · intro raw
    simp [errMessage, parsedDetail]
  · intro raw
    have hne : "HTTP error! status: " ++ natDecimal status ≠ "" := by
      intro h
      have hdata := congrArg String.data h
      rw [String.data_append] at hdata
      rcases List.append_eq_nil.mp hdata with ⟨h1, _⟩
      exact absurd h1 (by decide)
    simp [errMessage, parsedDetail, hne]

/-- Witness for C2: the amended behaviour at concrete responses. -/
theorem C2_witness :
    requestWith "API request failed" (FetchResult.netError "timeout") =
      Except.error "timeout" ∧
    errMessage 404 (Body.json (some "Not found") "raw") "API request failed" =
      "Not found" ∧
    errMessage 404 (Body.notJson "<html>") "API request failed" =
      "HTTP error! status: " ++ natDecimal 404 := by
  refine ⟨?_, ?_, ?_⟩
  · exact (C2_error_surfacing_amended "API request failed" "timeout" 404
      (Body.json none "raw") (by decide)).1
  · exact (C2_error_surfacing_amended "API request failed" "timeout" 404
      (Body.json none "raw") (by decide)).2.2.2.1 "raw" "Not found" (by decide)
  · exact (C2_error_surfacing_amended "API request failed" "timeout" 404
      (Body.json none "raw") (by decide)).2.2.2.2.2 "<html>"

/-! ## Claim C8 -/

/-- Claim C8: the logout flow always ends with `user = null`,
`isLoading = false` and the stored token cleared, whether or not the remote
logout request succeeds: the token is cleared in the `finally` of
`ApiClient.logout`, and the store's catch branch performs the same state
reset as the success branch. -/
theorem C8_logout_cleanup (st : AuthState) (remote : FetchResult) :
    (storeLogout st remote).1.user = none ∧
    (storeLogout st remote).1.isLoading = false ∧
    (storeLogout st remote).2 = none := by
  unfold storeLogout apiLogout
  rcases h : request remote with m | b <;> simp [h]

/-! ## Claim C9 -/

/-- Unfolding of `toggleDocstore` on a selection that contains the id. -/
theorem toggle_of_mem {l : List String} {id : String} (h : id ∈ l) :
    toggleDocstore l id = l.filter (fun x => x != id) := by
  simp [toggleDocstore, h]

/-- Unfolding of `toggleDocstore` on a selection without the id. -/
theorem toggle_of_not_mem {l : List String} {id : String} (h : id ∉ l) :
    toggleDocstore l id = l ++ [id] := by
  simp [toggleDocstore, h]

/-- Claim C9: `toggleDocstore` removes the id when present (leaving every
other id's membership unchanged) and appends it when absent; toggling the
same id twice yields a selection with exactly the same members as the
original. -/
theorem C9_toggle_roundtrip (prev : List String) (id : String) :
    (∀ x, x ∈ toggleDocstore (toggleDocstore prev id) id ↔ x ∈ prev) ∧
    (id ∈ prev →
      id ∉ toggleDocstore prev id ∧
      ∀ x, x ≠ id → (x ∈ toggleDocstore prev id ↔ x ∈ prev)) ∧
    (id ∉ prev → toggleDocstore prev id = prev ++ [id]) := by
  by_cases hmem : id ∈ prev
  · have h1 : toggleDocstore prev id = prev.filter (fun x => x != id) :=
      toggle_of_mem hmem
    have hnot : id ∉ toggleDocstore prev id := by
      rw [h1]
      simp
    have h2 : toggleDocstore (toggleDocstore prev id) id =
        toggleDocstore prev id ++ [id] := toggle_of_not_mem hnot
    refine ⟨?_, fun _ => ⟨hnot, ?_⟩, fun habs => absurd hmem habs⟩
    · intro x
      rw [h2, h1]
      by_cases hx : x = id
      · subst hx
        simp [hmem]
      · simp [hx]
    · intro x hx
      rw [h1]
      simp [hx]
  · have h1 : toggleDocstore prev id = prev ++ [id] :=
      toggle_of_not_mem hmem
    have hin : id ∈ toggleDocstore prev id := by
      rw [h1]; simp
    have h2 : toggleDocstore (toggleDocstore prev id) id =
        (prev ++ [id]).filter (fun x => x != id) := by
      rw [toggle_of_mem hin, h1]
    refine ⟨?_, fun habs => absurd habs hmem, fun _ => h1⟩
    intro x
    rw [h2]
    by_cases hx : x = id
    · subst hx
      simp [hmem]
    · simp [hx]

/-- Witness for C9 at a concrete selection. -/
theorem C9_witness :
    ("b" ∈ toggleDocstore (toggleDocstore ["a", "b"] "b") "b" ↔ "b" ∈ ["a", "b"]) ∧
    toggleDocstore ["a", "b"] "c" = ["a", "b", "c"] := by
  refine ⟨(C9_toggle_roundtrip ["a", "b"] "b").1 "b", ?_⟩
  exact (C9_toggle_roundtrip ["a", "b"] "c").2.2 (by decide)

/-! ## Claim C10 -/

/-- Claim C10: a search submitted with no docstores selected and none known
clears the result list and issues no API call; a search whose query text is
empty after trimming issues no API call and leaves the result list
unchanged. -/
theorem C10_empty_search_guards (q : String) (sel allIds : List String)
    (resp res : List QueryResult) :
    (jsTrim q ≠ "" → handleSearch q [] [] resp res = (none, [])) ∧
    (jsTrim q = "" → handleSearch q sel allIds resp res = (none, res)) := by
  constructor
  · intro hq
    simp [handleSearch, hq]
  · intro hq
    simp [handleSearch, hq]

/-- Witness for C10: a concrete non-empty query over an empty store set,
and a concrete whitespace-only query. -/
theorem C10_witness :
    handleSearch "hello" [] [] [] [⟨"d", "f", "c", 1⟩] = (none, []) ∧
    handleSearch "   " ["s1"] ["s1"] [] [⟨"d", "f", "c", 1⟩] =
      (none, [⟨"d", "f", "c", 1⟩]) := by
  constructor
  · exact (C10_empty_search_guards "hello" [] [] [] [⟨"d", "f", "c", 1⟩]).1 (by decide)
  · exact (C10_empty_search_guards "   " ["s1"] ["s1"] [] [⟨"d", "f", "c", 1⟩]).2 (by decide)

/-! ## Claim C4 -/

/-- Claim C4: when a non-`failed` Document with the same checksum already
exists in the store, uploading that content adds no row and reports
`duplicate`; consequently uploading identical content twice (with the
first submission succeeding) leaves exactly one `processing`/`completed`
Document with that checksum, and the second upload is a state-preserving
`duplicate`. -/
theorem C4_duplicate_upload (s : StoreDocs) (c : String) (submitOk : Bool) :
    ((∃ d ∈ s.docs, d.checksum = c ∧ d.status ≠ DocStatus.failed) →
      uploadOne s c submitOk = (s, UploadOutcome.duplicate)) ∧
    (s.docs.any (isLiveDup c) = false →
      (uploadOne s c true).2 = UploadOutcome.indexed ∧
      uploadOne (uploadOne s c true).1 c true =
        ((uploadOne s c true).1, UploadOutcome.duplicate) ∧
      ((uploadOne s c true).1.docs.countP
        (fun d => d.checksum == c &&
          (d.status == DocStatus.processing || d.status == DocStatus.completed))) = 1) := by
  constructor
  · rintro ⟨d, hd, hc, hs⟩
    have hany : s.docs.any (isLiveDup c) = true :=
      List.any_eq_true.mpr ⟨d, hd, by simp [isLiveDup, hc, hs]⟩
    simp [uploadOne, hany]
  · intro hany
    have hstep : uploadOne s c true =
        (⟨s.docs ++ [⟨c, DocStatus.processing⟩]⟩, UploadOutcome.indexed) := by
      simp [uploadOne, hany]
    have hnone : ∀ d ∈ s.docs, ¬ (isLiveDup c d = true) := by
      simpa using hany
    have hany2 : (s.docs ++ [⟨c, DocStatus.processing⟩] :
        List DocumentRow).any (isLiveDup c) = true := by
      rw [List.any_append]
      simp [isLiveDup]
    refine ⟨by rw [hstep], ?_, ?_⟩
    · rw [hstep]
      simp [uploadOne, hany2]
    · rw [hstep]
      rw [List.countP_append]
      have hzero : s.docs.countP
          (fun d => d.checksum == c &&
            (d.status == DocStatus.processing || d.status == DocStatus.completed)) = 0 := by
        refine List.countP_eq_zero.mpr ?_
        intro d hd hpd
        apply hnone d hd
        simp only [Bool.and_eq_true, beq_iff_eq, Bool.or_eq_true] at hpd
        obtain ⟨h1, h2⟩ := hpd
        have hne : d.status ≠ DocStatus.failed := by
          rcases h2 with h | h <;> simp [h]
        simp [isLiveDup, h1, hne]
      rw [hzero]
      simp [List.countP_cons]

/-- Witness for C4: two uploads of checksum `c1` into an empty store. -/
theorem C4_witness :
    (uploadOne ⟨[]⟩ "c1" true).2 = UploadOutcome.indexed ∧
    uploadOne (uploadOne ⟨[]⟩ "c1" true).1 "c1" true =
      ((uploadOne ⟨[]⟩ "c1" true).1, UploadOutcome.duplicate) ∧
    ((uploadOne ⟨[]⟩ "c1" true).1.docs.countP
      (fun d => d.checksum == "c1" &&
        (d.status == DocStatus.processing || d.status == DocStatus.completed))) = 1 :=
  (C4_duplicate_upload ⟨[]⟩ "c1" true).2 rfl

/-! ## Claim C5 -/

/-- Claim C5: along every state of the reindex sequence, the index named by
`Store.index_name` is live and holds the store's documents, so a query
issued at any point during or immediately after reindex returns as many
results as before the reindex — never zero because of the swap.  Moreover
the new index is populated before the cut-over, the old index is still
live at the cut-over state, and the old index is deleted only in the final
state, after `Store.index_name` already points at the new index. -/
theorem C5_reindex_no_downtime (s : SearchSys) (newName : String)
    (hfresh : newName ≠ s.store.indexName) :
    (∀ i : Nat, queryStore ((reindexStates s newName).getD i s) = queryStore s) ∧
    ((reindexStates s newName).getD 2 s).store.indexName = s.store.indexName ∧
    ((reindexStates s newName).getD 2 s).indexDocs newName = some (queryStore s) ∧
    ((reindexStates s newName).getD 3 s).store.indexName = newName ∧
    ((reindexStates s newName).getD 3 s).indexDocs s.store.indexName =
      s.indexDocs s.store.indexName ∧
    ((reindexStates s newName).getD 4 s).store.indexName = newName ∧
    ((reindexStates s newName).getD 4 s).indexDocs s.store.indexName = none := by
  have hfresh' : s.store.indexName ≠ newName := Ne.symm hfresh
  refine ⟨?_, ?_, ?_, ?_, ?_, ?_, ?_⟩
  · intro i
    match i with
    | 0 => rfl
    | 1 => simp [reindexStates, queryStore, hfresh']
    | 2 => simp [reindexStates, queryStore, hfresh']
    | 3 => simp [reindexStates, queryStore]
    | 4 => simp [reindexStates, queryStore, hfresh]
    | (j + 5) =>
      have hlen : (reindexStates s newName).length ≤ j + 5 := by
        simp [reindexStates]
      rw [List.getD_eq_default _ _ hlen]
  · rfl
  · simp [reindexStates, queryStore]
  · rfl
  · simp [reindexStates, hfresh']
  · rfl
  · simp [reindexStates]

/-- Witness for C5: the cut-over state of a concrete reindex still answers
queries with all three documents, and the old index is dropped only at the
final state. -/
theorem C5_witness :
    queryStore ((reindexStates sampleSys "docstack-a-2").getD 3 sampleSys) =
      queryStore sampleSys ∧
    ((reindexStates sampleSys "docstack-a-2").getD 4 sampleSys).indexDocs
      sampleSys.store.indexName = none := by
  constructor
  · exact (C5_reindex_no_downtime sampleSys "docstack-a-2" (by decide)).1 3
  · exact (C5_reindex_no_downtime sampleSys "docstack-a-2" (by decide)).2.2.2.2.2.2

/-! ## Claim C7 -/

/-- Claim C7: deleting a store removes its row and every Document and
Pipeline row it owns, while the rows of every other store are preserved
exactly (same rows, same order); in the client state, `deleteDocstore`
removes exactly the list entries with the deleted id, leaves the rest in
order, and clears `currentDocstore` only when it was the deleted store. -/
theorem C7_delete_cascade_frame (db : MetaDb) (sid : String)
    (st : DocstoreState) (did : String) :
    (∀ x ∈ (deleteStoreCascade db sid).stores, x ≠ sid) ∧
    (∀ d ∈ (deleteStoreCascade db sid).documents, d.docstoreId ≠ sid) ∧
    (∀ p ∈ (deleteStoreCascade db sid).pipelines, p.docstoreId ≠ sid) ∧
    (∀ other, other ≠ sid →
      (deleteStoreCascade db sid).documents.filter
          (fun d => d.docstoreId == other) =
        db.documents.filter (fun d => d.docstoreId == other) ∧
      (deleteStoreCascade db sid).pipelines.filter
          (fun p => p.docstoreId == other) =
        db.pipelines.filter (fun p => p.docstoreId == other) ∧
      (other ∈ (deleteStoreCascade db sid).stores ↔ other ∈ db.stores)) ∧
    (∀ d, d ∈ (deleteDocstoreClient st did).docstores ↔
      d ∈ st.docstores ∧ d.id ≠ did) ∧
    List.Sublist (deleteDocstoreClient st did).docstores st.docstores ∧
    (∀ c, st.currentDocstore = some c →
      (deleteDocstoreClient st did).currentDocstore =
        if c.id = did then none else some c) := by
  refine ⟨?_, ?_, ?_, ?_, ?_, ?_, ?_⟩
  · intro x hx
    have := List.mem_filter.mp hx
    simpa using this.2
  · intro d hd
    have := List.mem_filter.mp hd
    simpa using this.2
  · intro p hp
    have := List.mem_filter.mp hp
    simpa using this.2
  · intro other hother
    refine ⟨?_, ?_, ?_⟩
    · show (db.documents.filter (fun d => d.docstoreId != sid)).filter
          (fun d => d.docstoreId == other) =
        db.documents.filter (fun d => d.docstoreId == other)
      rw [List.filter_filter]
      refine List.filter_congr ?_
      intro a _
      by_cases h : a.docstoreId = other
      · simp [h, hother]
      · simp [h]
    · show (db.pipelines.filter (fun p => p.docstoreId != sid)).filter
          (fun p => p.docstoreId == other) =
        db.pipelines.filter (fun p => p.docstoreId == other)
      rw [List.filter_filter]
      refine List.filter_congr ?_
      intro a _
      by_cases h : a.docstoreId = other
      · simp [h, hother]
      · simp [h]
    · simp [deleteStoreCascade, List.mem_filter, hother]
  · intro d
    simp [deleteDocstoreClient, List.mem_filter]
  · exact List.filter_sublist st.docstores
  · intro c hc
    simp [deleteDocstoreClient, hc]

/-- Witness for C7: a two-store database where store `s1` is deleted; store
`s2` keeps its document row, and the client list drops exactly the deleted
entry. -/
theorem C7_witness :
    (deleteStoreCascade
        ⟨["s1", "s2"], [⟨"d1", "s1"⟩, ⟨"d2", "s2"⟩], [⟨"p1", "s1"⟩]⟩
        "s1").documents.filter (fun d => d.docstoreId == "s2") =
      ([⟨"d1", "s1"⟩, ⟨"d2", "s2"⟩] : List DocRow).filter
        (fun d => d.docstoreId == "s2") ∧
    List.Sublist
      (deleteDocstoreClient
        ⟨[⟨"s1", "Store One"⟩, ⟨"s2", "Store Two"⟩], none, false, none⟩
        "s1").docstores
      [⟨"s1", "Store One"⟩, ⟨"s2", "Store Two"⟩] := by
  constructor
  · exact ((C7_delete_cascade_frame
      ⟨["s1", "s2"], [⟨"d1", "s1"⟩, ⟨"d2", "s2"⟩], [⟨"p1", "s1"⟩]⟩ "s1"
      ⟨[⟨"s1", "Store One"⟩, ⟨"s2", "Store Two"⟩], none, false, none⟩
      "s1").2.2.2.1 "s2" (by decide)).1
  · exact (C7_delete_cascade_frame
      ⟨["s1", "s2"], [⟨"d1", "s1"⟩, ⟨"d2", "s2"⟩], [⟨"p1", "s1"⟩]⟩ "s1"
      ⟨[⟨"s1", "Store One"⟩, ⟨"s2", "Store Two"⟩], none, false, none⟩
      "s1").2.2.2.2.2.1

/-! ## Claim C3 -/

/-- Every element produced by `tagHits` carries the given store id and a
hit from the given list. -/
theorem mem_tagHits {t : Tagged} {sp : Nat} {sid : String} :
    ∀ {j : Nat} {hits : List Hit},
      t ∈ tagHits sp sid j hits → t.storeId = sid ∧ t.hit ∈ hits := by
  intro j hits
  induction hits generalizing j with
  | nil => intro h; simp [tagHits] at h
  | cons h tl ih =>
    intro hmem
    rcases List.mem_cons.mp hmem with heq | htl
    · subst heq
      exact ⟨rfl, List.mem_cons_self _ _⟩
    · obtain ⟨h1, h2⟩ := ih htl
      exact ⟨h1, List.mem_cons_of_mem _ h2⟩

/-- Every element produced by `tagStores` is traceable to one of the
stores of the fan-out. -/
theorem mem_tagStores {t : Tagged} :
    ∀ {i : Nat} {stores : List (String × List Hit)},
      t ∈ tagStores i stores → ∃ p ∈ stores, t.storeId = p.1 ∧ t.hit ∈ p.2 := by
  intro i stores
  induction stores generalizing i with
  | nil => intro h; simp [tagStores] at h
  | cons p rest ih =>
    intro hmem
    rcases List.mem_append.mp hmem with h1 | h2
    · obtain ⟨hs, hh⟩ := mem_tagHits h1
      exact ⟨p, List.mem_cons_self _ _, hs, hh⟩
    · obtain ⟨q, hq, hqs⟩ := ih h2
      exact ⟨q, List.mem_cons_of_mem _ hq, hqs⟩

/-- Claim C3: a multi-store query returns a single list of length at most
`topK`, ordered by the merge key — descending score, ties broken by store
position in the request and then by original retrieval order, so the
result is a deterministic function of the input — in particular pairwise
non-increasing in score, and every entry is traceable to its source
store. -/
theorem C3_multi_query_merge (stores : List (String × List Hit)) (topK : Nat) :
    (multiStoreQuery stores topK).length ≤ topK ∧
    (multiStoreQuery stores topK).Pairwise keyLE ∧
    (multiStoreQuery stores topK).Pairwise
      (fun a b => b.hit.score ≤ a.hit.score) ∧
    ∀ t ∈ multiStoreQuery stores topK,
      ∃ p ∈ stores, t.storeId = p.1 ∧ t.hit ∈ p.2 := by
  have hsorted : (List.insertionSort keyLE (tagStores 0 stores)).Pairwise keyLE :=
    List.sorted_insertionSort keyLE _
  have hpair : (multiStoreQuery stores topK).Pairwise keyLE :=
    hsorted.sublist (List.take_sublist _ _)
  refine ⟨List.length_take_le _ _, hpair, ?_, ?_⟩
  · refine hpair.imp ?_
    intro a b hab
    rcases hab with h | ⟨h, _⟩
    · exact le_of_lt h
    · exact le_of_eq h.symm
  · intro t ht
    have h1 : t ∈ List.insertionSort keyLE (tagStores 0 stores) :=
      (List.take_sublist _ _).subset ht
    have h2 : t ∈ tagStores 0 stores := (List.mem_insertionSort keyLE).mp h1
    exact mem_tagStores h2

/-- Witness for C3: a concrete two-store fan-out capped at two results. -/
theorem C3_witness :
    (multiStoreQuery
      [("a", [⟨"d1", "x", 2⟩]), ("b", [⟨"d2", "y", 3⟩, ⟨"d3", "z", 3⟩])]
      2).length ≤ 2 ∧
    (multiStoreQuery
      [("a", [⟨"d1", "x", 2⟩]), ("b", [⟨"d2", "y", 3⟩, ⟨"d3", "z", 3⟩])]
      2).Pairwise (fun a b => b.hit.score ≤ a.hit.score) := by
  constructor
  · exact (C3_multi_query_merge
      [("a", [⟨"d1", "x", 2⟩]), ("b", [⟨"d2", "y", 3⟩, ⟨"d3", "z", 3⟩])] 2).1
  · exact (C3_multi_query_merge
      [("a", [⟨"d1", "x", 2⟩]), ("b", [⟨"d2", "y", 3⟩, ⟨"d3", "z", 3⟩])] 2).2.2.1

/-- Sanity evaluation of the merge: equal scores keep the request's store
order and, within a store, the retrieval order; the higher score wins. -/
example :
    multiStoreQuery
      [("a", [⟨"d1", "x", 2⟩]), ("b", [⟨"d2", "y", 3⟩, ⟨"d3", "z", 3⟩])] 2 =
    [⟨1, 0, "b", ⟨"d2", "y", 3⟩⟩, ⟨1, 1, "b", ⟨"d3", "z", 3⟩⟩] := by
  decide

/-! ## Claim C6 -/

/-- `decDigitsAux` with enough fuel is inverted by `ofDec`. -/
theorem ofDec_decDigitsAux : ∀ (fuel n : Nat), n ≤ fuel →
    ofDec (decDigitsAux fuel n) = n := by
  intro fuel
  induction fuel with
  | zero =>
    intro n hn
    have h0 : n = 0 := Nat.le_zero.mp hn
    subst h0
    rfl
  | succ f ih =>
    intro n hn
    by_cases h0 : n = 0
    · subst h0
      simp [decDigitsAux, ofDec]
    · have hdiv : n / 10 ≤ f := by
        have hlt : n / 10 < n := Nat.div_lt_self (Nat.pos_of_ne_zero h0) (by norm_num)
        omega
      simp only [decDigitsAux, h0, if_false, ofDec, ih _ hdiv]
      omega

/-- All entries of `decDigitsAux` are decimal digits. -/
theorem decDigitsAux_lt_ten : ∀ (fuel n d : Nat),
    d ∈ decDigitsAux fuel n → d < 10 := by
  intro fuel
  induction fuel with
  | zero => intro n d h; simp [decDigitsAux] at h
  | succ f ih =>
    intro n d h
    by_cases h0 : n = 0
    · simp [decDigitsAux, h0] at h
    · simp only [decDigitsAux, h0, if_false] at h
      rcases List.mem_cons.mp h with he | ht
      · subst he
        omega
      · exact ih _ _ ht

/-- `digitChar` is injective on decimal digits. -/
theorem digitChar_inj_lt : ∀ d < 10, ∀ e < 10,
    digitChar d = digitChar e → d = e := by decide

/-- Mapping `digitChar` over digit lists is injective. -/
theorem map_digitChar_inj : ∀ (l₁ l₂ : List Nat),
    (∀ d ∈ l₁, d < 10) → (∀ d ∈ l₂, d < 10) →
    l₁.map digitChar = l₂.map digitChar → l₁ = l₂ := by
  intro l₁
  induction l₁ with
  | nil =>
    intro l₂ _ _ h
    cases l₂ with
    | nil => rfl
    | cons b u => simp at h
  | cons a t ih =>
    intro l₂ hb1 hb2 h
    cases l₂ with
    | nil => simp at h
    | cons b u =>
      simp only [List.map_cons, List.cons.injEq] at h
      obtain ⟨h1, h2⟩ := h
      have ha : a < 10 := hb1 a (List.mem_cons_self _ _)
      have hbb : b < 10 := hb2 b (List.mem_cons_self _ _)
      have hab := digitChar_inj_lt a ha b hbb h1
      subst hab
      rw [ih u (fun d hd => hb1 d (List.mem_cons_of_mem _ hd))
        (fun d hd => hb2 d (List.mem_cons_of_mem _ hd)) h2]

/-- Character data of `natDecimal` on a nonzero input. -/
theorem natDecimal_data (n : Nat) (hn : n ≠ 0) :
    (natDecimal n).data = ((decDigitsAux n n).map digitChar).reverse := by
  simp [natDecimal, hn]

/-- `natDecimal` of a nonzero number is never the string "0". -/
theorem natDecimal_ne_zero_str {n : Nat} (hn : n ≠ 0) : natDecimal n ≠ "0" := by
  intro h
  have hd := congrArg String.data h
  rw [natDecimal_data n hn] at hd
  have h1 : (decDigitsAux n n).map digitChar = ['0'] := by
    have h2 := congrArg List.reverse hd
    simpa using h2
  rcases hL : decDigitsAux n n with _ | ⟨a, t⟩
  · rw [hL] at h1
    simp at h1
  · rw [hL] at h1
    simp only [List.map_cons, List.cons.injEq] at h1
    obtain ⟨ha, ht⟩ := h1
    have ht' : t = [] := List.map_eq_nil_iff.mp ht
    have ha10 : a < 10 :=
      decDigitsAux_lt_ten n n a (by rw [hL]; exact List.mem_cons_self _ _)
    have ha0 : a = 0 := digitChar_inj_lt a ha10 0 (by norm_num) (by rw [ha]; rfl)
    have hval : ofDec (decDigitsAux n n) = n := ofDec_decDigitsAux n n le_rfl
    rw [hL, ha0, ht'] at hval
    simp [ofDec] at hval
    exact hn hval.symm

/-- `natDecimal` is injective: equal decimal renderings come from equal
numbers. -/
theorem natDecimal_inj {m n : Nat} (h : natDecimal m = natDecimal n) :
    m = n := by
  by_cases hm : m = 0 <;> by_cases hn : n = 0
  · omega
  · exfalso
    apply natDecimal_ne_zero_str hn
    rw [← h]
    subst hm
    rfl
  · exfalso
    apply natDecimal_ne_zero_str hm
    rw [h]
    subst hn
    rfl
  · have hd := congrArg String.data h
    rw [natDecimal_data m hm, natDecimal_data n hn] at hd
    have hmap := List.reverse_injective hd
    have hdig := map_digitChar_inj _ _
      (fun d hdm => decDigitsAux_lt_ten m m d hdm)
      (fun d hdn => decDigitsAux_lt_ten n n d hdn) hmap
    have h1 := ofDec_decDigitsAux m m le_rfl
    have h2 := ofDec_decDigitsAux n n le_rfl
    rw [← h1, ← h2, hdig]

/-- Claim C6, as frozen, is false on the modelled templates: for the
`query` template kind, two parameter sets differing only in `chunk_length`
(200 versus 300 below) render to byte-identical output, because the query
pipeline has no splitter stage and never mentions `chunk_length`. -/
theorem C6_counterexample :
    render TemplateKind.query
        ⟨"docstack-a-1", "model-x", 384, ChunkStrategy.sentence, 200, 20, 10,
          true, 32⟩ =
      render TemplateKind.query
        ⟨"docstack-a-1", "model-x", 384, ChunkStrategy.sentence, 300, 20, 10,
          true, 32⟩ ∧
    (200 : Nat) ≠ 300 := by
  exact ⟨rfl, by decide⟩

/-- Claim C6 (amended): `render` is a pure deterministic function; changing
only `chunk_length` changes the output of the `indexing` template, while
the `query` template — which does not use `chunk_length` — renders
identically. -/
theorem C6_render_amended (k : TemplateKind) (p : PipelineParams) (c : Nat)
    (hc : c ≠ p.chunkLength) :
    render k p = render k p ∧
    render TemplateKind.indexing { p with chunkLength := c } ≠
      render TemplateKind.indexing p ∧
    render TemplateKind.query { p with chunkLength := c } =
      render TemplateKind.query p := by
  refine ⟨rfl, ?_, rfl⟩
  intro h
  apply hc
  have h1 : indexingHead p ++ natDecimal c ++ indexingTail p =
      indexingHead p ++ natDecimal p.chunkLength ++ indexingTail p := h
  have hdata := congrArg String.data h1
  rw [String.data_append, String.data_append, String.data_append,
    String.data_append] at hdata
  have h2 := List.append_cancel_right hdata
  have h3 := List.append_cancel_left h2
  have h4 : natDecimal c = natDecimal p.chunkLength := congrArg String.mk h3
  exact natDecimal_inj h4

/-- Witness for C6: changing `chunk_length` from 200 to 300 changes the
indexing template's output. -/
theorem C6_witness :
    render TemplateKind.indexing
        ⟨"docstack-a-1", "model-x", 384, ChunkStrategy.sentence, 300, 20, 10,
          true, 32⟩ ≠
      render TemplateKind.indexing
        ⟨"docstack-a-1", "model-x", 384, ChunkStrategy.sentence, 200, 20, 10,
          true, 32⟩ :=
  (C6_render_amended TemplateKind.indexing
    ⟨"docstack-a-1", "model-x", 384, ChunkStrategy.sentence, 200, 20, 10,
      true, 32⟩ 300 (by decide)).2.1

end Docstack
